import Mathlib

/-!
Verification of the account-security and authentication subsystem of the
BackAroma backend.

The definitions below are a shallow embedding of the JavaScript source:

* `src/backend/routes/loginUser.js` — the Authenticator (`loginUser`);
* `src/backend/middleware/inputProtect.js` — input helpers
  (`sanitizeToken`) and the per-request lock re-check (`checkAccountLock`);
* `src/backend/middleware/jwt.js` — session-token issuance and the
  Request Gate (`generateToken`, `verifyToken`);
* `src/backend/controllers/adminChangeData.controller.js` — the admin
  lock endpoint (`lockUser`);
* `src/backend/controllers/authUser.controller.js` — the HTTP login
  controller (`userLogin`).

Times are modelled as integers (milliseconds since the epoch, as in JS
`Date`).  The relational store is modelled per account: the single
`user_security` row of the account under consideration is an
`Option SecRow` (`none` = the row does not exist yet).  SQL `NULL`
columns are `Option` fields.  JavaScript truthiness of nullable columns
is made explicit at each use site.
-/

namespace BackAroma

/-- JS `Math.ceil(d / m)` for integers `d` and positive `m`
(`loginUser.js:98`, `inputProtect.js:332` divide millisecond
differences by 60000 and take the ceiling). -/
def ceilDivInt (d m : Int) : Int := -(Int.fdiv (-d) m)

/-- ASCII whitespace removed by JS `String.prototype.trim`
(space, tab, LF, CR, VT, FF; the non-ASCII trim set is irrelevant to
the inputs this development evaluates). -/
def isJsSpace (c : Char) : Bool :=
  c == ' ' || c == '\t' || c == '\n' || c == '\r' ||
  c == Char.ofNat 11 || c == Char.ofNat 12

/-- JS `String.prototype.trim`: drop leading and trailing whitespace. -/
def jsTrim (s : String) : String :=
  ⟨((s.data.dropWhile isJsSpace).reverse.dropWhile isJsSpace).reverse⟩

/-- A `user_security` row (`user_security(user_id, login_attempts,
is_locked, locked_until, is_permanently_locked, lock_reason,
last_failed_login, last_login, ...)`).  `user_id` is implicit: the
store is modelled per account. -/
structure SecRow where
  login_attempts : Nat
  is_locked : Bool
  locked_until : Option Int
  is_permanently_locked : Bool
  lock_reason : Option String
  last_failed_login : Option Int
  last_login : Option Int
deriving DecidableEq

/-- The row materialised by the lazy-create insert
(`loginUser.js:57-62`): `login_attempts = 0`, `is_locked = false`,
`last_login = NULL`; the remaining columns take their schema defaults. -/
def freshSecRow : SecRow :=
  { login_attempts := 0
    is_locked := false
    locked_until := none
    is_permanently_locked := false
    lock_reason := none
    last_failed_login := none
    last_login := none }

/-- The lazy clear performed by the Authenticator when it observes an
expired temporary lock (`loginUser.js:71-84`).  Note that this upsert
also sets `last_failed_login = NULL` and `last_login = NULL`. -/
def loginLazyClear (r : SecRow) : SecRow :=
  { r with
    login_attempts := 0
    is_locked := false
    locked_until := none
    lock_reason := none
    last_failed_login := none
    last_login := none }

/-- The lazy clear performed by the Request Gate's lock re-check
(`inputProtect.js:348-357`).  It clears the lock fields and the
attempt counter only; the audit timestamps are untouched. -/
def gateLazyClear (r : SecRow) : SecRow :=
  { r with
    login_attempts := 0
    is_locked := false
    locked_until := none
    lock_reason := none }

/-- The upsert executed after a failed password comparison
(`loginUser.js:126-144`).  `staleAttempts` is the `login_attempts`
value the request read earlier (`loginUser.js:119` computes
`(user.login_attempts || 0) + 1` client-side from that read); the
written values are absolute (`EXCLUDED` columns), not a storage-side
increment. -/
def failWrite (staleAttempts : Nat) (now : Int) (r : SecRow) : SecRow :=
  let attempts := staleAttempts + 1
  let shouldLock := 5 ≤ attempts
  { r with
    login_attempts := attempts
    is_locked := shouldLock
    locked_until := if shouldLock then some (now + 15 * 60 * 1000) else none
    last_failed_login := some now
    lock_reason := if shouldLock then some "Demasiados intentos fallidos" else none }

/-- The upsert executed after a successful password comparison
(`loginUser.js:168-181`). -/
def successWrite (now : Int) (r : SecRow) : SecRow :=
  { r with
    login_attempts := 0
    is_locked := false
    locked_until := none
    last_failed_login := none
    lock_reason := none
    last_login := some now }

/-- The typed rejections / resolution of `loginUser`
(`loginUser.js:17-192`). -/
inductive LoginOutcome where
  /-- `reject(new Error("Email inválido"))` (`loginUser.js:18`). -/
  | emailInvalid
  /-- `reject(new Error("Credenciales inválidas"))` — short password
  (`loginUser.js:23`) or unknown email (`loginUser.js:38`). -/
  | invalidCredentials
  /-- `reject({code: "ACCOUNT_PERMANENTLY_LOCKED", ...})`
  (`loginUser.js:47-53`), carrying the stored `lock_reason`. -/
  | permLocked (lock_reason : Option String)
  /-- `reject({code: "ACCOUNT_LOCKED", remainingMin, ...})` for a lock
  that was already active (`loginUser.js:104-113`). -/
  | tempLocked (remainingMin : Int) (lockedUntil : Option Int) (lock_reason : Option String)
  /-- `reject({code: "ACCOUNT_LOCKED", attempts, maxAttempts})` when this
  failed attempt reaches the threshold (`loginUser.js:147-153`). -/
  | lockedNow (attempts maxAttempts : Nat)
  /-- `reject({code: "INVALID_PASSWORD", attempts, remaining, maxAttempts})`
  (`loginUser.js:157-165`). -/
  | invalidPassword (attempts remaining maxAttempts : Nat)
  /-- `resolve({id, name, email, role})` (`loginUser.js:184-189`). -/
  | success
  /-- `reject(new Error("Error interno del servidor"))` from the catch
  block (`loginUser.js:190-193`). -/
  | internalError
deriving DecidableEq

/-- The `code` field of the rejection object, when present. -/
def LoginOutcome.code : LoginOutcome → Option String
  | .permLocked _ => some "ACCOUNT_PERMANENTLY_LOCKED"
  | .tempLocked _ _ _ => some "ACCOUNT_LOCKED"
  | .lockedNow _ _ => some "ACCOUNT_LOCKED"
  | .invalidPassword _ _ _ => some "INVALID_PASSWORD"
  | _ => none

/-- HTTP status the login controller sends for each outcome
(`authUser.controller.js:100-153`): it dispatches on `error.code`
(423 for the two lock codes, 401 for `INVALID_PASSWORD`) and falls
back to 401 for every code-less rejection — including the internal
storage-failure rejection. -/
def LoginOutcome.userLoginStatus : LoginOutcome → Nat
  | .success => 200
  | .permLocked _ => 423
  | .tempLocked _ _ _ => 423
  | .lockedNow _ _ => 423
  | .invalidPassword _ _ _ => 401
  | _ => 401

/-- The body of `loginUser` after the joined read
(`loginUser.js:43-189`), given the account's `user_security` row as
read (`sec`, `none` when the LEFT JOIN produced NULLs), the result of
`bcrypt.compare` (`pwMatch`), and the current time.  `failWriteThrows`
makes the failed-password upsert (`loginUser.js:126`) throw, modelling
a storage failure at that await point; every other step succeeds.
Returns the outcome and the resulting `user_security` row. -/
def loginUserE (sec : Option SecRow) (pwMatch : Bool) (now : Int)
    (failWriteThrows : Bool) : Except String (LoginOutcome × Option SecRow) :=
  -- locals read from the LEFT JOIN; a missing row reads as SQL NULL,
  -- which JS treats as falsy (loginUser.js:27-41)
  let reason0 : Option String := sec.bind SecRow.lock_reason
  let perm : Bool := (sec.map SecRow.is_permanently_locked).getD false
  if perm then
    -- loginUser.js:43-54: permanent lock rejected before anything else
    .ok (.permLocked reason0, sec)
  else
    -- loginUser.js:56-66: lazy create; the condition
    -- `!user.login_attempts && user.login_attempts !== 0` holds exactly
    -- when login_attempts is NULL, i.e. when the row is absent
    let db1 : SecRow := match sec with
      | some r => r
      | none => freshSecRow
    -- loginUser.js:70-92: lazy clear of an expired temporary lock
    let expired : Bool := match db1.locked_until with
      | some t => t < now
      | none => false
    let db2 : SecRow := if expired then loginLazyClear db1 else db1
    -- loginUser.js:94-114: active temporary lock
    let lockActive : Bool := db2.is_locked ||
      (match db2.locked_until with
        | some t => now < t
        | none => false)
    if lockActive then
      -- `new Date(user.locked_until)` of NULL is the epoch (0)
      let luVal : Int := (db2.locked_until).getD 0
      let rm : Int := ceilDivInt (luVal - now) 60000
      .ok (.tempLocked (if 0 < rm then rm else 1) db2.locked_until db2.lock_reason,
           some db2)
    else if pwMatch then
      -- loginUser.js:168-189
      .ok (.success, some (successWrite now db2))
    else if failWriteThrows then
      -- the upsert at loginUser.js:126 throws; control jumps to the
      -- catch block (loginUser.js:190-193)
      .error "storage write failed"
    else
      -- loginUser.js:118-165
      let attempts := db2.login_attempts + 1
      let outcome : LoginOutcome :=
        if 5 ≤ attempts then .lockedNow attempts 5
        else .invalidPassword attempts (5 - attempts) 5
      .ok (outcome, some (failWrite db2.login_attempts now db2))

/-- The catch block of `loginUser` (`loginUser.js:190-193`): any
exception thrown inside the body is mapped to the generic internal
rejection; a normal run returns its own outcome. -/
def loginUserOutcome (r : Except String (LoginOutcome × Option SecRow)) : LoginOutcome :=
  match r with
  | .ok (o, _) => o
  | .error _ => .internalError

/-- Outcome of the Request Gate's lock re-check middleware
(`inputProtect.js:282-368`). -/
inductive GateOutcome where
  /-- `next()`: the request proceeds. -/
  | proceed
  /-- 423 `ACCOUNT_PERMANENTLY_LOCKED` (`inputProtect.js:308-316`). -/
  | rejectPermanent (lock_reason : Option String)
  /-- 423 `ACCOUNT_LOCKED` (`inputProtect.js:335-344`). -/
  | rejectLocked (remainingMin : Int) (lock_reason : Option String)
deriving DecidableEq

/-- HTTP status sent by the lock re-check, when it rejects. -/
def GateOutcome.httpStatus : GateOutcome → Option Nat
  | .proceed => none
  | .rejectPermanent _ => some 423
  | .rejectLocked _ _ => some 423

/-- `checkAccountLock` (`inputProtect.js:282-363`) on a request whose
`req.user.id` is set: read the account's `user_security` row and
decide.  Returns the outcome and the resulting row. -/
def checkAccountLock (sec : Option SecRow) (now : Int) : GateOutcome × Option SecRow :=
  match sec with
  | none => (.proceed, none)         -- inputProtect.js:296-298
  | some s =>
    if s.is_permanently_locked then  -- inputProtect.js:303-317
      (.rejectPermanent s.lock_reason, some s)
    else
      -- inputProtect.js:319-321: `is_locked` alone keeps the lock
      -- active, regardless of `locked_until`
      let isTemporarilyLocked : Bool := s.is_locked ||
        (match s.locked_until with
          | some t => now < t
          | none => false)
      let expired : Bool := match s.locked_until with
        | some t => t < now
        | none => false
      if isTemporarilyLocked then
        let rm : Int := match s.locked_until with
          | some t => max 1 (ceilDivInt (t - now) 60000)
          | none => 0
        (.rejectLocked rm s.lock_reason, some s)
      else if expired then
        -- inputProtect.js:347-361: lazy clear (reachable only when
        -- `is_locked` is already false)
        (.proceed, some (gateLazyClear s))
      else
        (.proceed, some s)

/-- The catch block of `checkAccountLock` (`inputProtect.js:364-367`):
a storage failure is swallowed and `next()` is called, so the request
proceeds exactly as if the account were not locked. -/
def checkAccountLockOutcome (r : Except String (Option SecRow)) (now : Int) : GateOutcome :=
  match r with
  | .ok sec => (checkAccountLock sec now).1
  | .error _ => .proceed

/-! ## Input validation at the login boundary -/

/-- Result of the shape checks `loginUser` performs before its joined
read (`loginUser.js:9-24`). -/
inductive PrecheckResult where
  /-- `reject(new Error("Email inválido"))` (`loginUser.js:18`). -/
  | rejectEmail
  /-- `reject(new Error("Credenciales inválidas"))` for an empty or
  shorter-than-4-character trimmed password (`loginUser.js:21-24`). -/
  | rejectShortPassword
  /-- Control reaches the `pool.query` joined read (`loginUser.js:26`). -/
  | pass
deriving DecidableEq

/-- JS `email.includes("@")` for the single-character needle used at
`loginUser.js:17`: character membership. -/
def jsIncludesChar (s : String) (c : Char) : Bool := s.data.contains c

/-- The shape checks of `loginUser` (`loginUser.js:9-24`) for a string
password.  `emailClean` is the result of
`inputProtect.validateEmailServer` (an external sanitisation
collaborator; `none` models a rejected email). -/
def loginPrecheck (emailClean : Option String) (password : String) : PrecheckResult :=
  let passwordCheck := jsTrim password
  match emailClean with
  | none => .rejectEmail
  | some e =>
    if !(jsIncludesChar e '@') then .rejectEmail
    else if passwordCheck == "" || passwordCheck.length < 4 then .rejectShortPassword
    else .pass

/-- The `loginUser` rejection produced by each failed shape check
(`loginUser.js:18` and `loginUser.js:23`); `none` when the checks pass
and the storage lookup is reached. -/
def precheckOutcome : PrecheckResult → Option LoginOutcome
  | .rejectEmail => some .emailInvalid
  | .rejectShortPassword => some .invalidCredentials
  | .pass => none

/-! ## Admin lock endpoint -/

/-- Result of the admin `lockUser` controller
(`adminChangeData.controller.js:239-294`). -/
inductive LockUserResult where
  /-- 400 "La razón del bloqueo debe tener al menos 10 caracteres". -/
  | badRequest
  /-- 200 `{success: true, permanent}`. -/
  | ok (permanent : Bool)
deriving DecidableEq

/-- `lockUser` (`adminChangeData.controller.js:239-294`): validate the
reason, then upsert either a permanent or a temporary lock on the
target account's `user_security` row.  `reason = none` models a
missing body field (JS `!reason`; the empty string, also falsy in JS,
is equally rejected because its trimmed length is 0). -/
def lockUser (reason : Option String) (durationMin : Int) (permanent : Bool)
    (sec : Option SecRow) (now : Int) : LockUserResult × Option SecRow :=
  match reason with
  | none => (.badRequest, sec)
  | some r =>
    if (jsTrim r).length < 10 then
      -- adminChangeData.controller.js:244-248: rejected before any query
      (.badRequest, sec)
    else if permanent then
      -- adminChangeData.controller.js:250-263: permanent-lock upsert
      let upd : SecRow := match sec with
        | some s =>
          { s with
            is_permanently_locked := true
            lock_reason := some r
            is_locked := false
            locked_until := none }
        | none =>
          { freshSecRow with
            is_permanently_locked := true
            lock_reason := some r }
      (.ok true, some upd)
    else
      -- adminChangeData.controller.js:268-283: temporary-lock upsert
      let untilMs : Int := now + durationMin * 60000
      let upd : SecRow := match sec with
        | some s =>
          { s with
            is_locked := true
            locked_until := some untilMs
            lock_reason := some r }
        | none =>
          { freshSecRow with
            is_locked := true
            locked_until := some untilMs
            lock_reason := some r }
      (.ok false, some upd)

/-! ## Token sanitisation and the Request Gate front end -/

/-- Characters the token sanitiser keeps: the JS character class
`[a-zA-Z0-9\-_\.]` (`inputProtect.js:144`). -/
def isTokenChar (c : Char) : Bool :=
  c.isAlphanum || c == '-' || c == '_' || c == '.'

/-- `sanitizeToken` (`inputProtect.js:142-146`): a missing or empty
token yields `null`; otherwise every character outside the allowed
class is REMOVED (not rejected) and the result is returned only when
strictly longer than 10 characters. -/
def sanitizeToken (token : Option String) : Option String :=
  match token with
  | none => none
  | some t =>
    if t == "" then none
    else
      let clean : String := ⟨t.data.filter isTokenChar⟩
      if 10 < clean.length then some clean else none

/-- What `verifyToken` does with the raw token before cryptographic
verification (`jwt.js:13-26`): sanitise, 401 when the sanitiser
returns `null`, otherwise hand the SANITISED string to `jwt.verify`. -/
inductive TokenStage where
  /-- 401 "No autorizado" (`jwt.js:19-21`). -/
  | reject401
  /-- `jwt.verify` is invoked on `cleaned` (`jwt.js:23`). -/
  | verifyOn (cleaned : String)
deriving DecidableEq

/-- The pre-verification stage of `verifyToken` (`jwt.js:13-21`). -/
def verifyTokenStage1 (raw : Option String) : TokenStage :=
  match sanitizeToken raw with
  | none => .reject401
  | some c => .verifyOn c

/-! ## Session tokens and the Request Gate -/

/-- A `users` row (`users(id, name, email, password, role, ...)`). -/
structure UserRec where
  id : Nat
  name : String
  email : String
  password : String
  role : String
deriving DecidableEq

/-- Character-level HTML escaping of `escapeOutput`
(`inputProtect.js:149-157`).  The sequential global replaces are
equivalent to this character-wise expansion because no replacement
output contains a character a later replace rewrites. -/
def escChar (c : Char) : String :=
  if c = '&' then "&amp;"
  else if c = '<' then "&lt;"
  else if c = '>' then "&gt;"
  else if c = '"' then "&quot;"
  else if c.toNat = 39 then "&#x27;"
  else String.singleton c

/-- `escapeOutput` (`inputProtect.js:149-157`). -/
def escapeOutput (s : String) : String :=
  ⟨s.data.flatMap fun c => (escChar c).data⟩

/-- The claim set of a session token (`jwt.js:65-71`). -/
structure JwtPayload where
  id : Nat
  name : String
  email : String
  role : String
deriving DecidableEq

/-- A signed session token (`jwt.sign` at `jwt.js:82` with the options
of `jwt.js:76-80`).  The HMAC signature is abstracted: the token
records the secret it was signed with, and verification succeeds
exactly when the verifier presents the same secret — modelling
"tampering with any claim invalidates the signature". -/
structure SignedJwt where
  payload : JwtPayload
  iatSec : Int
  expSec : Int
  issuer : String
  audience : String
  sigSecret : String
deriving DecidableEq

/-- `generateToken` (`jwt.js:63-97`): throws when the secret is unset,
otherwise signs `{id, name, email, role}` (name and email HTML-escaped)
with `expiresIn = 1h` and `issuer = "cafe-aroma.com"`. -/
def generateTokenE (u : UserRec) (nowMs : Int) (secret : String) :
    Except String SignedJwt :=
  if secret = "" then .error "JWT_SECRET no está definido"
  else
    .ok { payload :=
            { id := u.id
              name := escapeOutput u.name
              email := escapeOutput u.email
              role := u.role }
          iatSec := Int.fdiv nowMs 1000
          expSec := Int.fdiv nowMs 1000 + 3600
          issuer := "cafe-aroma.com"
          audience := u.email
          sigSecret := secret }

/-- Verification error classes of the `jsonwebtoken` library as
`verifyToken` distinguishes them (`jwt.js:48-52`). -/
inductive JwtError where
  /-- `TokenExpiredError`. -/
  | expired
  /-- `JsonWebTokenError` (bad signature, wrong issuer, malformed). -/
  | invalid
deriving DecidableEq

/-- `jwt.verify(token, secret, {issuer, ignoreExpiration: false})`
(`jwt.js:23-26`): signature check, then expiry (`exp` is not accepted
at or after its instant), then issuer. -/
def jwtVerify (t : SignedJwt) (secret issuer : String) (nowSec : Int) :
    Except JwtError JwtPayload :=
  if t.sigSecret ≠ secret then .error .invalid
  else if t.expSec ≤ nowSec then .error .expired
  else if t.issuer ≠ issuer then .error .invalid
  else .ok t.payload

/-- Result of the `verifyToken` middleware (`jwt.js:11-58`). -/
inductive GateAuthResult where
  /-- 401 (`jwt.js:19-21` "No autorizado", `jwt.js:38-41` "Usuario no
  encontrado"). -/
  | unauthenticated (msg : String)
  /-- 401 "Sesión expirada" (`jwt.js:48-49`). -/
  | sessionExpired
  /-- 403 (`jwt.js:28-31`, `jwt.js:50-51`). -/
  | tokenInvalid (msg : String)
  /-- `req.user = {id, email, role}` freshly read from `users`, then
  `next()` (`jwt.js:33-44`). -/
  | principal (id : Nat) (email role : String)
deriving DecidableEq

/-- The cryptographic/state part of `verifyToken` (`jwt.js:23-57`),
after the string front end (`verifyTokenStage1`): verify the token,
sanity-check the decoded claims (JS `!decoded.id || !decoded.email`,
falsy for 0 and the empty string), then re-read `{id, email, role}`
from the `users` table by the decoded id.  `db` is the `users` table
keyed by id. -/
def verifyToken (tok : Option SignedJwt) (secret : String) (nowSec : Int)
    (db : Nat → Option UserRec) : GateAuthResult :=
  match tok with
  | none => .unauthenticated "No autorizado"
  | some t =>
    match jwtVerify t secret "cafe-aroma.com" nowSec with
    | .error .expired => .sessionExpired
    | .error .invalid => .tokenInvalid "Token manipulado o inválido"
    | .ok d =>
      if d.id = 0 || d.email == "" then .tokenInvalid "Token inválido"
      else
        match db d.id with
        | none => .unauthenticated "Usuario no encontrado"
        | some u => .principal u.id u.email u.role

/-! ## Concurrency model for failed-login attempts

Each login request performs its joined read (`loginUser.js:26-35`) and
— on a wrong password — its upsert (`loginUser.js:126-144`) as two
separate storage operations with an await point between them.  In the
racy interleaving read-A, read-B, write-A, write-B both requests read
the same snapshot; each computes its attempt count client-side from
that stale read and writes the absolute values (`EXCLUDED` columns),
so the second write overwrites the five written columns with values
derived from the same stale snapshot. -/

/-- Both wrong-password requests read `row0` before either write
commits; the final row is B's `failWrite` applied on top of A's.
Returns each request's outcome (computed from its stale snapshot) and
the final stored row. -/
def twoFailedInterleaved (row0 : SecRow) (now : Int) :
    LoginOutcome × LoginOutcome × SecRow :=
  (loginUserOutcome (loginUserE (some row0) false now false),
   loginUserOutcome (loginUserE (some row0) false now false),
   failWrite row0.login_attempts now (failWrite row0.login_attempts now row0))

/-- The same two wrong-password requests run one after the other, each
reading the row the previous one wrote. -/
def twoFailedSequential (row0 : SecRow) (now : Int) : Option SecRow :=
  match loginUserE (some row0) false now false with
  | .ok (_, db1) =>
    (match loginUserE db1 false now false with
     | .ok (_, db2) => db2
     | .error _ => none)
  | .error _ => none

/-! ## Helper lemmas -/

/-- `jsTrim` never lengthens a string. -/
theorem jsTrim_length_le (s : String) : (jsTrim s).length ≤ s.length := by
  have hdw : ∀ l : List Char, (l.dropWhile isJsSpace).length ≤ l.length :=
    fun l => (List.dropWhile_suffix isJsSpace).sublist.length_le
  show (((s.data.dropWhile isJsSpace).reverse.dropWhile isJsSpace).reverse).length
      ≤ s.data.length
  rw [List.length_reverse]
  calc ((s.data.dropWhile isJsSpace).reverse.dropWhile isJsSpace).length
      ≤ (s.data.dropWhile isJsSpace).reverse.length := hdw _
    _ = (s.data.dropWhile isJsSpace).length := List.length_reverse _
    _ ≤ s.data.length := hdw _

/-- Every branch of `escChar` produces a non-empty string. -/
theorem escChar_ne_nil (c : Char) : (escChar c).data ≠ [] := by
  unfold escChar
  split_ifs <;> simp [String.singleton]

/-- HTML escaping never turns a non-empty string into the empty one. -/
theorem escapeOutput_ne_empty (s : String) (h : s ≠ "") : escapeOutput s ≠ "" := by
  cases s with
  | mk l =>
    cases l with
    | nil => exact absurd rfl h
    | cons c cs =>
      intro hc
      have hdata : (escChar c).data ++ cs.flatMap (fun c => (escChar c).data) = [] := by
        have h2 := congrArg String.data hc
        simpa [escapeOutput] using h2
      rcases List.append_eq_nil.mp hdata with ⟨h1, _⟩
      exact escChar_ne_nil c h1

/-! ## Example rows used by witnesses and counterexamples -/

/-- An open account with four recorded failed attempts. -/
def rowOpen4 : SecRow :=
  { login_attempts := 4, is_locked := false, locked_until := none,
    is_permanently_locked := false, lock_reason := none,
    last_failed_login := none, last_login := none }

/-- An open account with three recorded failed attempts. -/
def rowOpen3 : SecRow := { rowOpen4 with login_attempts := 3 }

/-- A temporarily locked account whose lock expired at time 0. -/
def rowExpiredLocked : SecRow :=
  { login_attempts := 5, is_locked := true, locked_until := some 0,
    is_permanently_locked := false,
    lock_reason := some "Demasiados intentos fallidos",
    last_failed_login := some 0, last_login := none }

/-- An account with an expired lock and both audit timestamps set. -/
def rowExpiredAudit : SecRow :=
  { login_attempts := 2, is_locked := true, locked_until := some 0,
    is_permanently_locked := false, lock_reason := some "Demasiados intentos fallidos",
    last_failed_login := some 50, last_login := some 77 }

/-- A permanently locked account. -/
def rowPermanent : SecRow :=
  { login_attempts := 0, is_locked := false, locked_until := none,
    is_permanently_locked := true, lock_reason := some "Fraude confirmado",
    last_failed_login := none, last_login := none }

/-! ## Claim theorems -/

/-- Claim C1: an account with 4 recorded failed attempts and no active
lock, hit by a wrong-password attempt (the fifth consecutive failure),
transitions to the temporary lock: `is_locked = true`,
`locked_until = now + 15 min`, lock reason "Demasiados intentos
fallidos" ("too many failed attempts"), and the attempt is rejected with
code `ACCOUNT_LOCKED`; while that lock is active every further login
attempt, with correct password or not, is rejected with
`ACCOUNT_LOCKED` as well. -/
theorem loginUser_fifth_failure_locks (row : SecRow) (now : Int)
    (hperm : row.is_permanently_locked = false)
    (hlock : row.is_locked = false)
    (hlu : row.locked_until = none)
    (hla : row.login_attempts = 4) :
    loginUserE (some row) false now false =
      .ok (.lockedNow 5 5, some (failWrite 4 now row))
    ∧ (failWrite 4 now row).is_locked = true
    ∧ (failWrite 4 now row).locked_until = some (now + 15 * 60 * 1000)
    ∧ (failWrite 4 now row).lock_reason = some "Demasiados intentos fallidos"
    ∧ (failWrite 4 now row).login_attempts = 5
    ∧ LoginOutcome.code (.lockedNow 5 5) = some "ACCOUNT_LOCKED"
    ∧ ∀ (now2 : Int) (m : Bool),
        now2 < now + 15 * 60 * 1000 →
        LoginOutcome.code
          (loginUserOutcome (loginUserE (some (failWrite 4 now row)) m now2 false)) =
          some "ACCOUNT_LOCKED" := by
  refine ⟨?_, rfl, rfl, rfl, rfl, rfl, ?_⟩
  · simp [loginUserE, hperm, hlock, hlu, hla]
  · intro now2 m h
    have hne : ¬ (now + 900000 < now2) := by omega
    simp [loginUserE, loginUserOutcome, failWrite, hperm, hne, LoginOutcome.code]

/-- Witness for C1 at a concrete account and time. -/
theorem loginUser_fifth_failure_locks_witness :
    loginUserE (some rowOpen4) false 0 false =
      .ok (.lockedNow 5 5, some (failWrite 4 0 rowOpen4))
    ∧ (failWrite 4 0 rowOpen4).is_locked = true
    ∧ (failWrite 4 0 rowOpen4).locked_until = some (0 + 15 * 60 * 1000)
    ∧ (failWrite 4 0 rowOpen4).lock_reason = some "Demasiados intentos fallidos"
    ∧ (failWrite 4 0 rowOpen4).login_attempts = 5
    ∧ LoginOutcome.code (.lockedNow 5 5) = some "ACCOUNT_LOCKED"
    ∧ ∀ (now2 : Int) (m : Bool),
        now2 < 0 + 15 * 60 * 1000 →
        LoginOutcome.code
          (loginUserOutcome (loginUserE (some (failWrite 4 0 rowOpen4)) m now2 false)) =
          some "ACCOUNT_LOCKED" :=
  loginUser_fifth_failure_locks rowOpen4 0 rfl rfl rfl rfl

/-- Claim C2: a permanently locked account rejects every login attempt
with `ACCOUNT_PERMANENTLY_LOCKED` (423), carrying the stored lock
reason, regardless of the password result and of the temporary-lock
fields, without touching the stored state (so the rejection persists
until an admin changes it); password verification is never consulted
(the outcome is the same for both values of `pwMatch`).  The Request
Gate's lock re-check likewise rejects every request with 423. -/
theorem permanent_lock_rejects_all (row : SecRow)
    (hperm : row.is_permanently_locked = true) :
    (∀ (pw : Bool) (now : Int) (fw : Bool),
        loginUserE (some row) pw now fw = .ok (.permLocked row.lock_reason, some row))
    ∧ (∀ (r : Option String),
        LoginOutcome.code (.permLocked r) = some "ACCOUNT_PERMANENTLY_LOCKED"
        ∧ LoginOutcome.userLoginStatus (.permLocked r) = 423)
    ∧ (∀ now : Int,
        checkAccountLock (some row) now = (.rejectPermanent row.lock_reason, some row))
    ∧ (∀ (r : Option String), GateOutcome.httpStatus (.rejectPermanent r) = some 423) := by
  refine ⟨?_, fun r => ⟨rfl, rfl⟩, ?_, fun r => rfl⟩
  · intro pw now fw
    simp [loginUserE, hperm]
  · intro now
    simp [checkAccountLock, hperm]

/-- Witness for C2 on a concrete permanently locked account. -/
theorem permanent_lock_rejects_all_witness :
    (∀ (pw : Bool) (now : Int) (fw : Bool),
        loginUserE (some rowPermanent) pw now fw =
          .ok (.permLocked rowPermanent.lock_reason, some rowPermanent))
    ∧ (∀ (r : Option String),
        LoginOutcome.code (.permLocked r) = some "ACCOUNT_PERMANENTLY_LOCKED"
        ∧ LoginOutcome.userLoginStatus (.permLocked r) = 423)
    ∧ (∀ now : Int,
        checkAccountLock (some rowPermanent) now =
          (.rejectPermanent rowPermanent.lock_reason, some rowPermanent))
    ∧ (∀ (r : Option String), GateOutcome.httpStatus (.rejectPermanent r) = some 423) :=
  permanent_lock_rejects_all rowPermanent rfl

/-- Claim C3 counterexample: an account whose temporary lock has
expired (`locked_until = 0`, `now = 60000`) but whose `is_locked` flag
is still true — exactly the state the system's own lockout write
produces — is REJECTED with 423 by the Request Gate's re-check instead
of being lazily cleared and allowed: `checkAccountLock` tests
`is_locked` before the expiry comparison, so the clear at
`inputProtect.js:347-361` is unreachable for such rows. -/
theorem gate_expired_lock_still_rejected_cex :
    (0 : Int) < 60000
    ∧ rowExpiredLocked.is_permanently_locked = false
    ∧ rowExpiredLocked.locked_until = some 0
    ∧ checkAccountLock (some rowExpiredLocked) 60000 =
        (.rejectLocked 1 (some "Demasiados intentos fallidos"), some rowExpiredLocked)
    ∧ GateOutcome.httpStatus
        (.rejectLocked 1 (some "Demasiados intentos fallidos")) = some 423 :=
  ⟨by decide, rfl, rfl, by rfl, rfl⟩

/-- Claim C3 amended: in the Authenticator a strictly expired
temporary lock is lazily cleared and a correct password then succeeds,
whatever the `is_locked` flag; the Request Gate's re-check lazily
clears an expired lock only when `is_locked` is already false, and
whenever `is_locked` is true it rejects (423) even after expiry. -/
theorem expired_lock_lazy_clear_amended (row : SecRow) (now : Int) (t : Int)
    (hperm : row.is_permanently_locked = false)
    (hlu : row.locked_until = some t) (hexp : t < now) :
    loginUserE (some row) true now false =
      .ok (.success, some (successWrite now (loginLazyClear row)))
    ∧ (row.is_locked = false →
        checkAccountLock (some row) now = (.proceed, some (gateLazyClear row)))
    ∧ (row.is_locked = true →
        (checkAccountLock (some row) now).1 =
          .rejectLocked (max 1 (ceilDivInt (t - now) 60000)) row.lock_reason) := by
  refine ⟨?_, ?_, ?_⟩
  · simp [loginUserE, hperm, hlu, hexp, loginLazyClear]
  · intro hlock
    have hnotafter : ¬ (now < t) := by omega
    simp [checkAccountLock, hperm, hlu, hlock, hexp, hnotafter]
  · intro hlock
    simp [checkAccountLock, hperm, hlu, hlock]

/-- Witness for the C3 amended theorem at a concrete expired lock. -/
theorem expired_lock_lazy_clear_amended_witness :
    (loginUserE (some rowExpiredLocked) true 60000 false =
      .ok (.success, some (successWrite 60000 (loginLazyClear rowExpiredLocked)))
    ∧ (rowExpiredLocked.is_locked = false →
        checkAccountLock (some rowExpiredLocked) 60000 =
          (.proceed, some (gateLazyClear rowExpiredLocked)))
    ∧ (rowExpiredLocked.is_locked = true →
        (checkAccountLock (some rowExpiredLocked) 60000).1 =
          .rejectLocked (max 1 (ceilDivInt ((0 : Int) - 60000) 60000))
            rowExpiredLocked.lock_reason)) :=
  expired_lock_lazy_clear_amended rowExpiredLocked 60000 0 rfl rfl (by decide)

/-- Claim C4 (the code contradicts it): the attempt counter is
computed client-side from the value read before the race window
(`loginUser.js:119`) and written back as absolute `EXCLUDED` values
(`loginUser.js:126-144`).  In the interleaving read-A, read-B,
write-A, write-B: from `loginAttempts = 4` both requests compute and
write `attempts = 5` from the same stale read of 4 (each response
reports `lockedNow 5`), which the claim explicitly forbids; from
`loginAttempts = 3` the interleaving loses an increment — the final
row shows 4 and unlocked where the serialized execution of the same
two requests ends at 5 and locked. -/
theorem concurrent_failed_logins_race :
    twoFailedInterleaved rowOpen4 0 =
      (.lockedNow 5 5, .lockedNow 5 5, failWrite 4 0 (failWrite 4 0 rowOpen4))
    ∧ (failWrite 4 0 (failWrite 4 0 rowOpen4)).login_attempts = 5
    ∧ (twoFailedInterleaved rowOpen3 0).2.2.login_attempts = 4
    ∧ (twoFailedInterleaved rowOpen3 0).2.2.is_locked = false
    ∧ (twoFailedSequential rowOpen3 0).map SecRow.login_attempts = some 5
    ∧ (twoFailedSequential rowOpen3 0).map SecRow.is_locked = some true :=
  ⟨rfl, rfl, rfl, rfl, rfl, rfl⟩

/-- Claim C5 counterexample: a storage failure in the Request Gate's
lock re-check does NOT surface as INTERNAL (500) — the catch block
(`inputProtect.js:364-367`) calls `next()`, so the request proceeds
exactly as if the account were not locked (fail open, no error status
at all); and the Authenticator's internal rejection is surfaced by the
login controller as 401, not 500 (`authUser.controller.js:150-153`). -/
theorem storage_failure_handling_cex :
    checkAccountLockOutcome (.error "storage timeout") 0 = .proceed
    ∧ GateOutcome.httpStatus .proceed = none
    ∧ LoginOutcome.userLoginStatus .internalError = 401 :=
  ⟨rfl, rfl, rfl⟩

/-- Claim C5 amended: storage failures during authentication do fail
closed — any throw inside `loginUser` (in particular a failing
persistence write after a wrong-password check: `failWriteThrows`)
is caught and rejected as the generic internal error, never resolved
as success; but the login controller surfaces that rejection as 401
(not 500), and a storage failure in the per-request lock re-check is
swallowed entirely: the request proceeds as if not locked. -/
theorem storage_failure_fail_closed_amended (row : SecRow)
    (hperm : row.is_permanently_locked = false)
    (hlock : row.is_locked = false)
    (hlu : row.locked_until = none) :
    (∀ e : String, loginUserOutcome (.error e) = .internalError)
    ∧ (∀ now : Int,
        loginUserE (some row) false now true = .error "storage write failed"
        ∧ loginUserOutcome (loginUserE (some row) false now true) = .internalError)
    ∧ LoginOutcome.internalError ≠ .success
    ∧ LoginOutcome.userLoginStatus .internalError = 401
    ∧ (∀ (e : String) (now : Int), checkAccountLockOutcome (.error e) now = .proceed) := by
  refine ⟨fun e => rfl, ?_, by decide, rfl, fun e now => rfl⟩
  intro now
  constructor
  · simp [loginUserE, hperm, hlock, hlu]
  · simp [loginUserE, loginUserOutcome, hperm, hlock, hlu]

/-- Witness for the C5 amended theorem on a concrete open account. -/
theorem storage_failure_fail_closed_amended_witness :
    ((∀ e : String, loginUserOutcome (.error e) = .internalError)
    ∧ (∀ now : Int,
        loginUserE (some rowOpen4) false now true = .error "storage write failed"
        ∧ loginUserOutcome (loginUserE (some rowOpen4) false now true) = .internalError)
    ∧ LoginOutcome.internalError ≠ .success
    ∧ LoginOutcome.userLoginStatus .internalError = 401
    ∧ (∀ (e : String) (now : Int), checkAccountLockOutcome (.error e) now = .proceed)) :=
  storage_failure_fail_closed_amended rowOpen4 rfl rfl rfl

/-- Claim C6: an admin lock request whose reason is shorter than 10
characters is rejected with 400 before any query is issued, so the
target account's Security State — all of it, lock flags, timestamps
and counter alike — is exactly what it was. -/
theorem lockUser_short_reason_no_mutation (r : String) (d : Int) (p : Bool)
    (sec : Option SecRow) (now : Int) (h : r.length < 10) :
    lockUser (some r) d p sec now = (.badRequest, sec) := by
  have hle := jsTrim_length_le r
  simp only [lockUser]
  rw [if_pos (by omega)]

/-- Witness for C6: scenario C of the spec, `reason = "short"`
(5 characters, and in particular fewer than 10). -/
theorem lockUser_short_reason_no_mutation_witness :
    ("short" : String).length < 10
    ∧ lockUser (some "short") 30 false (some rowOpen4) 0 = (.badRequest, some rowOpen4) :=
  ⟨by decide, lockUser_short_reason_no_mutation "short" 30 false (some rowOpen4) 0 (by decide)⟩

/-- Claim C7 counterexample: an email accepted by the server email
validator and containing `@`, together with the non-empty 3-character
password "abc", is rejected by `loginUser` BEFORE the storage lookup
(`loginUser.js:21-24` requires a trimmed length of at least 4, not 1),
and with the generic credentials error that the controller maps to
401 — not an `INVALID_INPUT` 400. -/
theorem login_password_min_length_cex :
    jsIncludesChar "user@example.com" '@' = true
    ∧ ("abc" : String) ≠ ""
    ∧ 1 ≤ ("abc" : String).length
    ∧ loginPrecheck (some "user@example.com") "abc" = .rejectShortPassword
    ∧ loginPrecheck (some "user@example.com") "abc" ≠ .pass
    ∧ precheckOutcome .rejectShortPassword = some .invalidCredentials
    ∧ LoginOutcome.userLoginStatus .invalidCredentials = 401 :=
  ⟨rfl, by decide, by decide, by rfl, by decide, rfl, rfl⟩

/-- Claim C7 amended: `loginUser` reaches its storage lookup exactly
for a validator-accepted email containing `@` and a password whose
trimmed length is at least 4; an absent/rejected email fails with the
email error, and any shorter password — including non-empty ones of
1 to 3 characters — is rejected before storage with the generic
credentials error (HTTP 401 at the controller), the only
password-strength rule applied at login. -/
theorem login_shape_checks_amended :
    (∀ (e p : String), jsIncludesChar e '@' = true → 4 ≤ (jsTrim p).length →
        loginPrecheck (some e) p = .pass)
    ∧ (∀ (e p : String), loginPrecheck (some e) p = .pass →
        jsIncludesChar e '@' = true ∧ 4 ≤ (jsTrim p).length)
    ∧ (∀ p : String, loginPrecheck none p = .rejectEmail)
    ∧ (∀ (e p : String), (jsTrim p).length < 4 → loginPrecheck (some e) p ≠ .pass)
    ∧ precheckOutcome .rejectEmail = some .emailInvalid
    ∧ precheckOutcome .rejectShortPassword = some .invalidCredentials
    ∧ precheckOutcome .pass = none := by
  refine ⟨?_, ?_, fun p => rfl, ?_, rfl, rfl, rfl⟩
  · intro e p hat hlen
    have hne : ¬ (jsTrim p = "") := by
      intro hempty
      rw [hempty] at hlen
      simp [String.length] at hlen
    have hnl : ¬ ((jsTrim p).length < 4) := by omega
    simp [loginPrecheck, hat, hne, hnl]
  · intro e p hpass
    by_cases hat : jsIncludesChar e '@' = true
    · refine ⟨hat, ?_⟩
      by_cases hlen : 4 ≤ (jsTrim p).length
      · exact hlen
      · exfalso
        have hnl : (jsTrim p).length < 4 := by omega
        simp [loginPrecheck, hat, hnl] at hpass
    · exfalso
      have hf : jsIncludesChar e '@' = false := Bool.eq_false_iff.mpr hat
      simp [loginPrecheck, hf] at hpass
  · intro e p hlen
    by_cases hat : jsIncludesChar e '@' = true
    · simp [loginPrecheck, hat, hlen]
    · have hf : jsIncludesChar e '@' = false := Bool.eq_false_iff.mpr hat
      simp [loginPrecheck, hf]

/-- Witness for the C7 amended theorem at concrete inputs. -/
theorem login_shape_checks_amended_witness :
    loginPrecheck (some "user@example.com") "aaaa" = .pass
    ∧ loginPrecheck none "aaaa" = .rejectEmail
    ∧ loginPrecheck (some "user@example.com") "abc" ≠ .pass :=
  ⟨login_shape_checks_amended.1 "user@example.com" "aaaa" rfl (by decide),
   login_shape_checks_amended.2.2.1 "aaaa",
   login_shape_checks_amended.2.2.2.1 "user@example.com" "abc" (by decide)⟩

/-- Claim C8 counterexample: the Authenticator's lazy clear of an
expired temporary lock (`loginUser.js:71-84`) does NOT leave the audit
timestamps unchanged — its upsert explicitly sets
`last_failed_login = NULL` and `last_login = NULL`.  End to end: an
account with `last_login = 77` and an expired lock, after one
wrong-password attempt (whose own upsert never touches `last_login`),
ends with `last_login = NULL`. -/
theorem login_lazy_clear_audit_cex :
    rowExpiredAudit.last_login = some 77
    ∧ rowExpiredAudit.last_failed_login = some 50
    ∧ (loginLazyClear rowExpiredAudit).last_login = none
    ∧ (loginLazyClear rowExpiredAudit).last_failed_login = none
    ∧ loginUserE (some rowExpiredAudit) false 600000 false =
        .ok (.invalidPassword 1 4 5,
             some { login_attempts := 1, is_locked := false, locked_until := none,
                    is_permanently_locked := false, lock_reason := none,
                    last_failed_login := some 600000, last_login := none })
    ∧ (some 77 : Option Int) ≠ none :=
  ⟨rfl, rfl, rfl, rfl, by rfl, by decide⟩

/-- Claim C8 amended: the Request Gate's lazy clear sets exactly
`login_attempts = 0`, `is_locked = false`, `locked_until = NULL`,
`lockReason = NULL` and leaves every other field — in particular
`last_login` and `last_failed_login` — unchanged; the Authenticator's
lazy clear sets those four fields too but additionally resets both
audit timestamps to NULL (observable end to end: after the clear a
failed attempt stores `last_login = NULL`). -/
theorem lazy_clear_frame_amended (row : SecRow) (now : Int) (t : Int)
    (hperm : row.is_permanently_locked = false)
    (hlu : row.locked_until = some t) (hexp : t < now) :
    (row.is_locked = false →
      checkAccountLock (some row) now =
        (.proceed, some { row with login_attempts := 0, is_locked := false, locked_until := none, lock_reason := none }))
    ∧ (gateLazyClear row).last_login = row.last_login
    ∧ (gateLazyClear row).last_failed_login = row.last_failed_login
    ∧ (gateLazyClear row).is_permanently_locked = row.is_permanently_locked
    ∧ loginUserE (some row) false now false =
        .ok (.invalidPassword 1 4 5, some (failWrite 0 now (loginLazyClear row)))
    ∧ (failWrite 0 now (loginLazyClear row)).last_login = none
    ∧ (loginLazyClear row).last_login = none
    ∧ (loginLazyClear row).last_failed_login = none := by
  refine ⟨?_, rfl, rfl, rfl, ?_, rfl, rfl, rfl⟩
  · intro hlock
    have hnotafter : ¬ (now < t) := by omega
    simp [checkAccountLock, gateLazyClear, hperm, hlu, hlock, hexp, hnotafter]
  · simp [loginUserE, hperm, hlu, hexp, loginLazyClear, failWrite]

/-- Witness for the C8 amended theorem at a concrete expired lock. -/
theorem lazy_clear_frame_amended_witness :
    ((rowExpiredAudit.is_locked = false →
      checkAccountLock (some rowExpiredAudit) 600000 =
        (.proceed, some { rowExpiredAudit with login_attempts := 0, is_locked := false, locked_until := none, lock_reason := none }))
    ∧ (gateLazyClear rowExpiredAudit).last_login = rowExpiredAudit.last_login
    ∧ (gateLazyClear rowExpiredAudit).last_failed_login = rowExpiredAudit.last_failed_login
    ∧ (gateLazyClear rowExpiredAudit).is_permanently_locked = rowExpiredAudit.is_permanently_locked
    ∧ loginUserE (some rowExpiredAudit) false 600000 false =
        .ok (.invalidPassword 1 4 5, some (failWrite 0 600000 (loginLazyClear rowExpiredAudit)))
    ∧ (failWrite 0 600000 (loginLazyClear rowExpiredAudit)).last_login = none
    ∧ (loginLazyClear rowExpiredAudit).last_login = none
    ∧ (loginLazyClear rowExpiredAudit).last_failed_login = none) :=
  lazy_clear_frame_amended rowExpiredAudit 600000 0 rfl rfl (by decide)

/-- Claim C9 counterexample: the token "aaaaaaaaaaa!" contains a
character outside the allowed class, so by the claim it should be
rejected before cryptographic verification; instead `sanitizeToken`
strips the offending character and `verifyToken` hands the MODIFIED
string "aaaaaaaaaaa" to `jwt.verify` — verification is attempted, and
on a token different from the one presented. -/
theorem sanitize_token_modifies_cex :
    ("aaaaaaaaaaa!" : String).data.all isTokenChar = false
    ∧ sanitizeToken (some "aaaaaaaaaaa!") = some "aaaaaaaaaaa"
    ∧ verifyTokenStage1 (some "aaaaaaaaaaa!") = .verifyOn "aaaaaaaaaaa"
    ∧ ("aaaaaaaaaaa" : String) ≠ "aaaaaaaaaaa!" :=
  ⟨by rfl, by rfl, by rfl, by decide⟩

/-- Claim C9 amended: an absent token, an empty token, or one whose
residue after stripping disallowed characters has length at most 10 is
rejected with 401 before any cryptographic verification; otherwise
verification is attempted — always on the stripped residue, which for
an already well-formed token (alphanumeric plus `.`/`-`/`_`, length
greater than 10) is the token itself, unmodified. -/
theorem token_format_gate_amended :
    verifyTokenStage1 none = .reject401
    ∧ verifyTokenStage1 (some "") = .reject401
    ∧ (∀ t : String, ((⟨t.data.filter isTokenChar⟩ : String)).length ≤ 10 →
        verifyTokenStage1 (some t) = .reject401)
    ∧ (∀ (t c : String), verifyTokenStage1 (some t) = .verifyOn c →
        c = (⟨t.data.filter isTokenChar⟩ : String) ∧ 10 < c.length)
    ∧ (∀ t : String, t.data.all isTokenChar = true → 10 < t.length →
        verifyTokenStage1 (some t) = .verifyOn t) := by
  have hchar : ∀ t : String, t ≠ "" →
      verifyTokenStage1 (some t) =
        if 10 < (t.data.filter isTokenChar).length
        then .verifyOn (String.mk (t.data.filter isTokenChar))
        else .reject401 := by
    intro t hne
    have hbe : (t == "") = false := by simp [hne]
    by_cases h : 10 < (t.data.filter isTokenChar).length
    · simp [verifyTokenStage1, sanitizeToken, hbe, String.length, h]
    · simp [verifyTokenStage1, sanitizeToken, hbe, String.length, h]
  refine ⟨rfl, rfl, ?_, ?_, ?_⟩
  · intro t hlen
    have hlen2 : (t.data.filter isTokenChar).length ≤ 10 := by
      simpa [String.length] using hlen
    by_cases he : t = ""
    · subst he; rfl
    · rw [hchar t he, if_neg (by omega)]
  · intro t c hv
    by_cases he : t = ""
    · subst he
      simp [verifyTokenStage1, sanitizeToken] at hv
    · rw [hchar t he] at hv
      by_cases hlen : 10 < (t.data.filter isTokenChar).length
      · rw [if_pos hlen] at hv
        have hc : String.mk (t.data.filter isTokenChar) = c := by
          simpa using hv
        refine ⟨hc.symm, ?_⟩
        rw [← hc]
        simpa [String.length] using hlen
      · rw [if_neg hlen] at hv
        exact absurd hv (by simp)
  · intro t hall hlen
    have hfilter : t.data.filter isTokenChar = t.data :=
      List.filter_eq_self.mpr (fun a ha => List.all_eq_true.mp hall a ha)
    have he : t ≠ "" := by
      intro hc
      rw [hc] at hlen
      simp [String.length] at hlen
    rw [hchar t he, hfilter, if_pos (show 10 < t.data.length from hlen)]

/-- Witness for the C9 amended theorem at concrete tokens. -/
theorem token_format_gate_amended_witness :
    verifyTokenStage1 (some "short.tok") = .reject401
    ∧ verifyTokenStage1 (some "abcdefghijk") = .verifyOn "abcdefghijk" :=
  ⟨token_format_gate_amended.2.2.1 "short.tok" (by decide),
   token_format_gate_amended.2.2.2.2 "abcdefghijk" (by rfl) (by decide)⟩

/-- Claim C10: a successfully issued session token (non-empty secret,
non-zero id, non-empty email), presented to the Request Gate before
its 1-hour expiry, resolves to a Principal with the same `{id, role}`
as at issuance whenever the Credential Store still holds that id with
that role; moreover the attached role is always the one re-read from
the store at request time — for ANY store contents, the resolved
Principal carries the stored record's role, so the token's embedded
role claim is never the source of truth. -/
theorem token_round_trip_role_reread (u u2 : UserRec) (secret : String)
    (nowMs nowSec2 : Int) (db : Nat → Option UserRec)
    (hsecret : secret ≠ "") (hid : u.id ≠ 0) (hemail : u.email ≠ "")
    (hfresh : nowSec2 < Int.fdiv nowMs 1000 + 3600)
    (hdb : db u.id = some u2) (hid2 : u2.id = u.id) (hrole : u2.role = u.role) :
    ∃ t : SignedJwt, generateTokenE u nowMs secret = .ok t
      ∧ verifyToken (some t) secret nowSec2 db = .principal u.id u2.email u.role
      ∧ (∀ (db2 : Nat → Option UserRec) (v : UserRec),
          db2 u.id = some v →
          verifyToken (some t) secret nowSec2 db2 = .principal v.id v.email v.role) := by
  have hesc : escapeOutput u.email ≠ "" := escapeOutput_ne_empty u.email hemail
  have hexp : ¬ (Int.fdiv nowMs 1000 + 3600 ≤ nowSec2) := by omega
  refine ⟨{ payload := { id := u.id, name := escapeOutput u.name, email := escapeOutput u.email, role := u.role }, iatSec := Int.fdiv nowMs 1000, expSec := Int.fdiv nowMs 1000 + 3600, issuer := "cafe-aroma.com", audience := u.email, sigSecret := secret }, ?_, ?_, ?_⟩
  · rw [generateTokenE, if_neg hsecret]
  · simp [verifyToken, jwtVerify, hexp, hid, hesc, hdb, hid2, hrole]
  · intro db2 v hdb2
    simp [verifyToken, jwtVerify, hexp, hid, hesc, hdb2]

/-- A concrete user for the C10 witness. -/
def aliceRec : UserRec :=
  { id := 1, name := "Alice", email := "alice@example.com",
    password := "digest", role := "admin" }

/-- Witness for C10: a token issued for `aliceRec` at time 0, checked
1800 seconds later against a store still holding the same id and role. -/
theorem token_round_trip_role_reread_witness :
    ∃ t : SignedJwt, generateTokenE aliceRec 0 "topsecret" = .ok t
      ∧ verifyToken (some t) "topsecret" 1800
          (fun n => if n = 1 then some aliceRec else none) =
          .principal aliceRec.id aliceRec.email aliceRec.role
      ∧ (∀ (db2 : Nat → Option UserRec) (v : UserRec),
          db2 aliceRec.id = some v →
          verifyToken (some t) "topsecret" 1800 db2 = .principal v.id v.email v.role) :=
  token_round_trip_role_reread aliceRec aliceRec "topsecret" 0 1800
    (fun n => if n = 1 then some aliceRec else none)
    (by decide) (by decide) (by decide) (by decide) (by rfl) rfl rfl

end BackAroma
